import Mathlib

/-
Shallow embedding of the Solana lottery program
(src/programs/lottery/src/lib.rs).

Modelling conventions:
- `Pubkey` values are modelled as `Nat` (only equality of keys matters).
- `u64` / `u32` machine integers are modelled as `Nat`; wherever the source
  uses wrapping or checked arithmetic, the embedding makes the modulus or
  the range check explicit (`U64_MOD`, `U32_MOD`, `checked_mul`,
  `checked_div`).
- Each Anchor instruction handler becomes a pure function
  `LotteryState -> Except LotteryError ...`; the Anchor account constraints
  (which run before the handler body) are embedded as the leading checks.
- A failing instruction aborts the whole transaction on Solana, so the
  transition function `step` keeps the old state whenever a handler
  returns `Except.error`.
- The Switchboard randomness account is modelled by `OracleData`: either
  unparseable (`RandomnessAccountData::parse` fails), not yet resolved
  (`get_value` fails), or a resolved 32-byte value, represented as the
  list of its bytes.  The source consumes the value as
  `randomness_result[0]`, i.e. the first byte.
- The lamport transfers of `claim_prize` are recorded in a `Payout` and
  applied to a `Balances` record by `apply_payout`, mirroring the order
  of the `try_borrow_mut_lamports` debits and credits in the source.
-/

/-- Status enum of the lottery account (`LotteryStatus` in the source). -/
inductive LotteryStatus where
  | Active
  | EndedWaitingForWinner
  | WinnerSelected
  | Completed
deriving DecidableEq, Repr

/-- Error enum of the program (`LotteryError` in the source). -/
inductive LotteryError where
  | LotteryClosed
  | LotteryNotEnded
  | WinnerAlreadySelected
  | NotWinner
  | Overflow
  | NoParticipants
  | MaxParticipantsReached
  | NoWinnerSelected
  | RandomnessUnavailable
  | RandomnessNotResolved
  | InvalidWinnerIndex
  | InvalidLotteryId
  | CreatorCannotParticipate
  | InvalidLotteryState
deriving DecidableEq, Repr

/-- The persisted lottery account (`LotteryState` in the source). -/
structure LotteryState where
  lottery_id : String
  admin : Nat
  creator : Nat
  entry_fee : Nat
  total_tickets : Nat
  participants : List Nat
  end_time : Int
  winner : Option Nat
  randomness_account : Option Nat
  index : Nat
  status : LotteryStatus
  total_prize : Nat
  buy_back : Bool
deriving DecidableEq, Repr

/-- `MAX_PARTICIPANTS` constant of the source (a `u32`). -/
def MAX_PARTICIPANTS : Nat := 100

/-- Modulus of the `u32` machine type. -/
def U32_MOD : Nat := 2 ^ 32

/-- Modulus of the `u64` machine type. -/
def U64_MOD : Nat := 2 ^ 64

/-- `u64::checked_mul`: the product, unless it leaves the `u64` range. -/
def checked_mul (a b : Nat) : Option Nat :=
  if a * b < U64_MOD then some (a * b) else none

/-- `u64::checked_div`: floor division, failing only on a zero divisor. -/
def checked_div (a b : Nat) : Option Nat :=
  if b = 0 then none else some (a / b)

/-- The `total.checked_mul(pct)? .checked_div(100)?` pattern used for each
payout leg in `claim_prize` (both failure points map to `Overflow`). -/
def checked_percent (total pct : Nat) : Option Nat :=
  match checked_mul total pct with
  | none => none
  | some t => checked_div t 100

/-- Resolved state of the Switchboard randomness account, as consumed by
`select_winner`: parse failure, unresolved round, or the 32-byte value. -/
inductive OracleData where
  | unparseable
  | notResolved
  | value (bytes : List Nat)
deriving DecidableEq, Repr

/-- `(randomness_result[0] as usize) % lottery.total_tickets as usize`:
the winner index is the first byte of the oracle value modulo the ticket
count. -/
def winner_index_of (bytes : List Nat) (total_tickets : Nat) : Nat :=
  bytes.headD 0 % total_tickets

/-- `LotteryState::get_status`: apply the lazy
`Active -> EndedWaitingForWinner` rule when the sale window has passed,
then return the (possibly updated) status together with the record. -/
def lottery_get_status (now : Int) (s : LotteryState) :
    LotteryStatus × LotteryState :=
  if now > s.end_time ∧ s.status = LotteryStatus.Active then
    (LotteryStatus.EndedWaitingForWinner,
     { s with status := LotteryStatus.EndedWaitingForWinner })
  else (s.status, s)

/-- The `init_lottery` handler: a fresh lottery record. -/
def init_lottery (lottery_id : String) (admin creator_key : Nat)
    (entry_fee : Nat) (end_time : Int) (buy_back : Bool) : LotteryState :=
  { lottery_id := lottery_id
    admin := admin
    creator := creator_key
    entry_fee := entry_fee
    total_tickets := 0
    participants := []
    end_time := end_time
    winner := none
    randomness_account := none
    index := 0
    status := LotteryStatus.Active
    total_prize := 0
    buy_back := buy_back }

/-- The `get_status` handler: check the supplied id, then read the status
through the lazy rule. -/
def get_status_op (arg_id : String) (now : Int) (s : LotteryState) :
    Except LotteryError (LotteryStatus × LotteryState) :=
  if s.lottery_id = arg_id then Except.ok (lottery_get_status now s)
  else Except.error LotteryError.InvalidLotteryId

/-- The `buy_ticket` handler.  The entry-fee transfer from the player to
the lottery account is modelled as always succeeding (payment sufficiency
is part of the environment); the record mutations follow the source. -/
def buy_ticket (arg_id : String) (player : Nat) (now : Int)
    (s : LotteryState) : Except LotteryError LotteryState :=
  if s.lottery_id = arg_id then
    if player ≠ s.creator then
      let res := lottery_get_status now s
      let s1 := res.2
      if res.1 = LotteryStatus.Active then
        if s1.winner = none then
          if s1.total_tickets < MAX_PARTICIPANTS then
            Except.ok { s1 with
              participants := s1.participants ++ [player]
              total_tickets := (s1.total_tickets + 1) % U32_MOD
              index := (s1.index + 1) % U32_MOD }
          else Except.error LotteryError.MaxParticipantsReached
        else Except.error LotteryError.WinnerAlreadySelected
      else Except.error LotteryError.InvalidLotteryState
    else Except.error LotteryError.CreatorCannotParticipate
  else Except.error LotteryError.InvalidLotteryId

/-- `LotteryState::set_winner`: refuse a second winner, require membership
in `participants`, then record the winner. -/
def set_winner (winner : Nat) (s : LotteryState) :
    Except LotteryError LotteryState :=
  if s.winner = none then
    if winner ∈ s.participants then
      Except.ok { s with winner := some winner }
    else Except.error LotteryError.InvalidWinnerIndex
  else Except.error LotteryError.WinnerAlreadySelected

/-- The `select_winner` handler.  The leading `s.winner = none` test is the
`constraint = lottery.winner.is_none()` on the `SelectWinner` accounts,
which Anchor evaluates before the handler body runs. -/
def select_winner (arg_id : String) (oracle_key : Nat) (oracle : OracleData)
    (now : Int) (s : LotteryState) : Except LotteryError LotteryState :=
  if s.winner = none then
    if s.lottery_id = arg_id then
      let res := lottery_get_status now s
      let current_status := res.1
      let s1 := res.2
      if current_status = LotteryStatus.EndedWaitingForWinner ∨
         (current_status = LotteryStatus.Active ∧ now > s1.end_time) then
        match checked_mul s1.entry_fee s1.total_tickets with
        | none => Except.error LotteryError.Overflow
        | some tp =>
          let s2 := { s1 with total_prize := tp }
          if s2.winner = none then
            if 0 < s2.total_tickets ∧ s2.participants ≠ [] then
              let s3 := { s2 with randomness_account := some oracle_key }
              match oracle with
              | OracleData.unparseable =>
                  Except.error LotteryError.RandomnessUnavailable
              | OracleData.notResolved =>
                  Except.error LotteryError.RandomnessNotResolved
              | OracleData.value bytes =>
                  let wi := winner_index_of bytes s3.total_tickets
                  if wi < s3.participants.length then
                    let winner_pubkey := s3.participants.getD wi 0
                    match set_winner winner_pubkey s3 with
                    | Except.error e => Except.error e
                    | Except.ok s4 =>
                        if s4.winner.isSome then
                          if s4.winner = some winner_pubkey then
                            Except.ok
                              { s4 with status := LotteryStatus.WinnerSelected }
                          else Except.error LotteryError.InvalidWinnerIndex
                        else Except.error LotteryError.NoWinnerSelected
                  else Except.error LotteryError.InvalidWinnerIndex
            else Except.error LotteryError.NoParticipants
          else Except.error LotteryError.WinnerAlreadySelected
      else Except.error LotteryError.InvalidLotteryState
    else Except.error LotteryError.InvalidLotteryId
  else Except.error LotteryError.WinnerAlreadySelected

/-- The four lamport transfers performed by `claim_prize`. -/
structure Payout where
  prize : Nat
  creator_share : Nat
  developer_share : Nat
  admin_share : Nat
deriving DecidableEq, Repr

/-- Lamport balances of the accounts touched by `claim_prize`: the lottery
record (the escrow) and the four payout destinations. -/
structure Balances where
  lottery : Nat
  player : Nat
  creator : Nat
  developer : Nat
  admin : Nat
deriving DecidableEq, Repr

/-- Apply the four debit/credit pairs of `claim_prize` in source order:
creator share, developer share, winner prize, admin share. -/
def apply_payout (b : Balances) (p : Payout) : Balances :=
  { lottery := b.lottery - p.creator_share - p.developer_share
               - p.prize - p.admin_share
    player := b.player + p.prize
    creator := b.creator + p.creator_share
    developer := b.developer + p.developer_share
    admin := b.admin + p.admin_share }

/-- The `claim_prize` handler.  The first three checks are the account
constraints on `ClaimPrize` (`winner.is_some`, `winner == player`,
`status == WinnerSelected`), in declaration order; then the handler body
re-checks the id and the winner and computes the four payout legs. -/
def claim_prize (arg_id : String) (player : Nat) (s : LotteryState) :
    Except LotteryError (LotteryState × Payout) :=
  if s.winner.isSome then
    if s.winner = some player then
      if s.status = LotteryStatus.WinnerSelected then
        if s.lottery_id = arg_id then
          if some player = s.winner then
            match checked_percent s.total_prize 90 with
            | none => Except.error LotteryError.Overflow
            | some prize =>
              match checked_percent s.total_prize 3 with
              | none => Except.error LotteryError.Overflow
              | some creator_share =>
                match checked_percent s.total_prize 3 with
                | none => Except.error LotteryError.Overflow
                | some developer_share =>
                  match checked_percent s.total_prize 4 with
                  | none => Except.error LotteryError.Overflow
                  | some admin_share =>
                      Except.ok
                        ({ s with status := LotteryStatus.Completed },
                         { prize := prize
                           creator_share := creator_share
                           developer_share := developer_share
                           admin_share := admin_share })
          else Except.error LotteryError.NotWinner
        else Except.error LotteryError.InvalidLotteryId
      else Except.error LotteryError.InvalidLotteryState
    else Except.error LotteryError.NotWinner
  else Except.error LotteryError.NoWinnerSelected

/-- Run `claim_prize` against a balance sheet: on success the payout is
applied, on failure the whole transaction rolls back. -/
def claim_prize_run (arg_id : String) (player : Nat) (s : LotteryState)
    (b : Balances) : LotteryState × Balances :=
  match claim_prize arg_id player s with
  | Except.ok r => (r.1, apply_payout b r.2)
  | Except.error _ => (s, b)

/-- The payout legs as pure arithmetic on the recorded prize: 90%, 3%, 3%
and 4%, each by multiply-then-divide. -/
def payout_of (t : Nat) : Payout :=
  { prize := t * 90 / 100
    creator_share := t * 3 / 100
    developer_share := t * 3 / 100
    admin_share := t * 4 / 100 }

/-- One public instruction of the program, with the ambient inputs (clock,
oracle account) made explicit. -/
inductive Op where
  | opGetStatus (arg_id : String) (now : Int)
  | opBuyTicket (arg_id : String) (player : Nat) (now : Int)
  | opSelectWinner (arg_id : String) (oracle_key : Nat)
      (oracle : OracleData) (now : Int)
  | opClaimPrize (arg_id : String) (player : Nat)

/-- Transaction-level transition: a failing instruction leaves the
persisted record unchanged (Solana rolls back the whole transaction). -/
def step (op : Op) (s : LotteryState) : LotteryState :=
  match op with
  | Op.opGetStatus arg_id now =>
      match get_status_op arg_id now s with
      | Except.ok r => r.2
      | Except.error _ => s
  | Op.opBuyTicket arg_id player now =>
      match buy_ticket arg_id player now s with
      | Except.ok s2 => s2
      | Except.error _ => s
  | Op.opSelectWinner arg_id k o now =>
      match select_winner arg_id k o now s with
      | Except.ok s2 => s2
      | Except.error _ => s
  | Op.opClaimPrize arg_id player =>
      match claim_prize arg_id player s with
      | Except.ok r => r.1
      | Except.error _ => s

/-- States reachable from a freshly initialized lottery by any sequence of
public instructions. -/
inductive Reachable : LotteryState → Prop where
  | init (lottery_id : String) (admin creator_key : Nat) (entry_fee : Nat)
      (end_time : Int) (buy_back : Bool) :
      Reachable (init_lottery lottery_id admin creator_key entry_fee
        end_time buy_back)
  | next (s : LotteryState) (op : Op) :
      Reachable s → Reachable (step op s)

/-- Concrete lottery used for the spec scenario: `entry_fee = 1000`,
three tickets sold, sale window closed. -/
def scenario_state : LotteryState :=
  { lottery_id := "demo"
    admin := 0
    creator := 50
    entry_fee := 1000
    total_tickets := 3
    participants := [11, 22, 33]
    end_time := 100
    winner := none
    randomness_account := none
    index := 3
    status := LotteryStatus.EndedWaitingForWinner
    total_prize := 0
    buy_back := false }

/-- A 32-byte oracle value whose raw value is 7 (first byte 7, rest 0). -/
def scenario_bytes : List Nat := 7 :: List.replicate 31 0

/-- `scenario_state` after a successful `select_winner` against oracle
account 777 returning `scenario_bytes`. -/
def scenario_selected : LotteryState :=
  { scenario_state with
    total_prize := 3000
    randomness_account := some 777
    winner := some 22
    status := LotteryStatus.WinnerSelected }

/-- A `WinnerSelected` lottery whose `total_prize` (50) is not divisible by
100: one ticket at 50 lamports. -/
def cex_state : LotteryState :=
  { lottery_id := "cex"
    admin := 0
    creator := 2
    entry_fee := 50
    total_tickets := 1
    participants := [7]
    end_time := 0
    winner := some 7
    randomness_account := some 3
    index := 1
    status := LotteryStatus.WinnerSelected
    total_prize := 50
    buy_back := false }

/-- Balance sheet whose escrow holds exactly `cex_state.total_prize`. -/
def cex_balances : Balances :=
  { lottery := 50, player := 0, creator := 0, developer := 0, admin := 0 }

/-- An `Active` lottery that has sold out all 100 tickets. -/
def demo_full : LotteryState :=
  { lottery_id := "full"
    admin := 0
    creator := 9
    entry_fee := 10
    total_tickets := 100
    participants := List.replicate 100 1
    end_time := 50
    winner := none
    randomness_account := none
    index := 100
    status := LotteryStatus.Active
    total_prize := 0
    buy_back := false }

/-- A lottery whose `entry_fee * total_tickets` leaves the `u64` range. -/
def demo_overflow : LotteryState :=
  { lottery_id := "ovf"
    admin := 0
    creator := 1
    entry_fee := 2 ^ 63
    total_tickets := 2
    participants := [4, 5]
    end_time := 0
    winner := none
    randomness_account := none
    index := 2
    status := LotteryStatus.EndedWaitingForWinner
    total_prize := 0
    buy_back := true }

/-- An ended lottery with zero participants. -/
def demo_empty : LotteryState :=
  { lottery_id := "mt"
    admin := 0
    creator := 1
    entry_fee := 500
    total_tickets := 0
    participants := []
    end_time := 0
    winner := none
    randomness_account := none
    index := 0
    status := LotteryStatus.EndedWaitingForWinner
    total_prize := 0
    buy_back := false }

/-- An `Active` lottery whose sale window ends at time 10. -/
def demo_active : LotteryState :=
  { lottery_id := "act"
    admin := 0
    creator := 1
    entry_fee := 500
    total_tickets := 0
    participants := []
    end_time := 10
    winner := none
    randomness_account := none
    index := 0
    status := LotteryStatus.Active
    total_prize := 0
    buy_back := false }

/-- The record invariant maintained by every instruction: ticket count in
sync with the participant list, the cap respected, and the creator never a
participant. -/
def InvS (s : LotteryState) : Prop :=
  s.total_tickets = s.participants.length ∧
  s.total_tickets ≤ MAX_PARTICIPANTS ∧
  s.creator ∉ s.participants

lemma lgs_snd_cases (now : Int) (s : LotteryState) :
    (lottery_get_status now s).2 = s ∨
    (lottery_get_status now s).2 =
      { s with status := LotteryStatus.EndedWaitingForWinner } := by
  unfold lottery_get_status
  split
  · right; rfl
  · left; rfl

lemma set_winner_ok (w : Nat) (s s' : LotteryState)
    (h : set_winner w s = Except.ok s') :
    s.winner = none ∧ w ∈ s.participants ∧ s' = { s with winner := some w } := by
  unfold set_winner at h
  split_ifs at h with h1 h2
  · refine ⟨h1, h2, ?_⟩
    injection h with h
    exact h.symm

lemma checked_mul_eq_some (a b c : Nat) (h : checked_mul a b = some c) :
    c = a * b ∧ a * b < U64_MOD := by
  unfold checked_mul at h
  split_ifs at h with h1
  · injection h with h
    exact ⟨h.symm, h1⟩

@[simp] lemma lgs_participants (now : Int) (s : LotteryState) :
    (lottery_get_status now s).2.participants = s.participants := by
  unfold lottery_get_status; split <;> rfl

@[simp] lemma lgs_total_tickets (now : Int) (s : LotteryState) :
    (lottery_get_status now s).2.total_tickets = s.total_tickets := by
  unfold lottery_get_status; split <;> rfl

@[simp] lemma lgs_winner (now : Int) (s : LotteryState) :
    (lottery_get_status now s).2.winner = s.winner := by
  unfold lottery_get_status; split <;> rfl

@[simp] lemma lgs_creator (now : Int) (s : LotteryState) :
    (lottery_get_status now s).2.creator = s.creator := by
  unfold lottery_get_status; split <;> rfl

@[simp] lemma lgs_lottery_id (now : Int) (s : LotteryState) :
    (lottery_get_status now s).2.lottery_id = s.lottery_id := by
  unfold lottery_get_status; split <;> rfl

@[simp] lemma lgs_entry_fee (now : Int) (s : LotteryState) :
    (lottery_get_status now s).2.entry_fee = s.entry_fee := by
  unfold lottery_get_status; split <;> rfl

@[simp] lemma lgs_end_time (now : Int) (s : LotteryState) :
    (lottery_get_status now s).2.end_time = s.end_time := by
  unfold lottery_get_status; split <;> rfl

@[simp] lemma lgs_total_prize (now : Int) (s : LotteryState) :
    (lottery_get_status now s).2.total_prize = s.total_prize := by
  unfold lottery_get_status; split <;> rfl

@[simp] lemma lgs_index (now : Int) (s : LotteryState) :
    (lottery_get_status now s).2.index = s.index := by
  unfold lottery_get_status; split <;> rfl

lemma select_winner_ok (arg_id : String) (k : Nat) (o : OracleData)
    (now : Int) (s s' : LotteryState)
    (h : select_winner arg_id k o now s = Except.ok s') :
    s.winner = none ∧
    s.entry_fee * s.total_tickets < U64_MOD ∧
    s'.total_prize = s.entry_fee * s.total_tickets ∧
    s'.participants = s.participants ∧
    s'.total_tickets = s.total_tickets ∧
    s'.creator = s.creator ∧
    s'.lottery_id = s.lottery_id ∧
    s'.status = LotteryStatus.WinnerSelected := by
  simp only [select_winner] at h
  repeat' split at h
  all_goals try exact Except.noConfusion h
  rename_i hw hid hst xm tp heqmul hw2 hpart xo bytes hwi xs s4 heqsw hs4some hs4eq
  obtain ⟨hmul1, hmul2⟩ := checked_mul_eq_some _ _ _ heqmul
  obtain ⟨hw4, hmem, hs4⟩ := set_winner_ok _ _ _ heqsw
  injection h with h
  subst hs4
  subst h
  simp only [lgs_entry_fee, lgs_total_tickets] at hmul1 hmul2
  exact ⟨hw, hmul2, by simp [hmul1], by simp, by simp, by simp, by simp, rfl⟩

lemma buy_ticket_ok (arg_id : String) (p : Nat) (now : Int)
    (s s' : LotteryState) (h : buy_ticket arg_id p now s = Except.ok s') :
    s.lottery_id = arg_id ∧ p ≠ s.creator ∧ s.winner = none ∧
    s.total_tickets < MAX_PARTICIPANTS ∧
    s'.participants = s.participants ++ [p] ∧
    s'.total_tickets = (s.total_tickets + 1) % U32_MOD ∧
    s'.creator = s.creator ∧
    s'.winner = s.winner ∧
    s'.lottery_id = s.lottery_id := by
  simp only [buy_ticket] at h
  repeat' split at h
  all_goals try exact Except.noConfusion h
  rename_i hid hcr hst hw ht
  injection h with h
  subst h
  exact ⟨hid, hcr, by simpa using hw, by simpa using ht,
    by simp, by simp, by simp, by simp, by simp⟩

lemma checked_percent_eq_some (t pct c : Nat)
    (h : checked_percent t pct = some c) :
    c = t * pct / 100 ∧ t * pct < U64_MOD := by
  unfold checked_percent at h
  split at h
  · exact Option.noConfusion h
  · rename_i t2 heq
    obtain ⟨h1, h2⟩ := checked_mul_eq_some _ _ _ heq
    simp only [checked_div, if_neg (by norm_num : ¬(100 = 0))] at h
    injection h with h
    subst h1
    exact ⟨h.symm, h2⟩

lemma claim_prize_ok (arg_id : String) (p : Nat) (s s' : LotteryState)
    (pay : Payout) (h : claim_prize arg_id p s = Except.ok (s', pay)) :
    s.winner = some p ∧ s.status = LotteryStatus.WinnerSelected ∧
    s.lottery_id = arg_id ∧ s.total_prize * 90 < U64_MOD ∧
    s' = { s with status := LotteryStatus.Completed } ∧
    pay = payout_of s.total_prize := by
  simp only [claim_prize] at h
  repeat' split at h
  all_goals try exact Except.noConfusion h
  rename_i hsome hw hst hid hw2 x90 prize heq90 x3 cs heq3 x3b ds heq3b x4 ash heq4
  injection h with h
  injection h with ha hb
  obtain ⟨e90, b90⟩ := checked_percent_eq_some _ _ _ heq90
  obtain ⟨e3, _⟩ := checked_percent_eq_some _ _ _ heq3
  have e3b : ds = cs := (Option.some.inj heq3b).symm
  obtain ⟨e4, _⟩ := checked_percent_eq_some _ _ _ heq4
  subst ha
  subst hb
  refine ⟨hw, hst, hid, b90, rfl, ?_⟩
  simp [payout_of, e90, e3, e3b, e4]

lemma lgs_eq_of_not_active (now : Int) (s : LotteryState)
    (h : s.status ≠ LotteryStatus.Active) :
    lottery_get_status now s = (s.status, s) := by
  unfold lottery_get_status
  rw [if_neg]
  intro hc
  exact h hc.2

lemma lgs_eq_of_late_active (now : Int) (s : LotteryState)
    (h1 : s.status = LotteryStatus.Active) (h2 : now > s.end_time) :
    lottery_get_status now s =
      (LotteryStatus.EndedWaitingForWinner,
       { s with status := LotteryStatus.EndedWaitingForWinner }) := by
  unfold lottery_get_status
  rw [if_pos ⟨h2, h1⟩]

lemma lgs_eq_of_early_active (now : Int) (s : LotteryState)
    (h2 : ¬ now > s.end_time) :
    lottery_get_status now s = (s.status, s) := by
  unfold lottery_get_status
  rw [if_neg]
  intro hc
  exact h2 hc.1

lemma checked_mul_of_lt (a b : Nat) (h : a * b < U64_MOD) :
    checked_mul a b = some (a * b) := by
  unfold checked_mul
  rw [if_pos h]

lemma checked_percent_of_lt (t pct : Nat) (h : t * pct < U64_MOD) :
    checked_percent t pct = some (t * pct / 100) := by
  unfold checked_percent
  rw [checked_mul_of_lt _ _ h]
  simp [checked_div]

lemma claim_prize_spec (arg_id : String) (p : Nat) (s : LotteryState)
    (h1 : s.status = LotteryStatus.WinnerSelected)
    (h2 : s.winner = some p)
    (h3 : s.lottery_id = arg_id)
    (h4 : s.total_prize * 90 < U64_MOD) :
    claim_prize arg_id p s =
      Except.ok ({ s with status := LotteryStatus.Completed },
                 payout_of s.total_prize) := by
  have h3le : s.total_prize * 3 < U64_MOD :=
    lt_of_le_of_lt (Nat.mul_le_mul_left _ (by norm_num)) h4
  have h4le : s.total_prize * 4 < U64_MOD :=
    lt_of_le_of_lt (Nat.mul_le_mul_left _ (by norm_num)) h4
  unfold claim_prize
  rw [if_pos (by simp [h2] : s.winner.isSome = true), if_pos h2, if_pos h1,
      if_pos h3, if_pos h2.symm, checked_percent_of_lt _ 90 h4,
      checked_percent_of_lt _ 3 h3le, checked_percent_of_lt _ 4 h4le]
  rfl

lemma set_winner_spec (w : Nat) (s : LotteryState)
    (h1 : s.winner = none) (h2 : w ∈ s.participants) :
    set_winner w s = Except.ok { s with winner := some w } := by
  unfold set_winner
  rw [if_pos h1, if_pos h2]

lemma select_winner_spec (arg_id : String) (k : Nat) (now : Int)
    (bytes : List Nat) (s : LotteryState)
    (hw : s.winner = none)
    (hid : s.lottery_id = arg_id)
    (hst : s.status = LotteryStatus.EndedWaitingForWinner ∨
           (s.status = LotteryStatus.Active ∧ now > s.end_time))
    (hmul : s.entry_fee * s.total_tickets < U64_MOD)
    (hpos : 0 < s.total_tickets)
    (hlen : s.total_tickets ≤ s.participants.length) :
    select_winner arg_id k (OracleData.value bytes) now s =
      Except.ok { s with
        total_prize := s.entry_fee * s.total_tickets
        randomness_account := some k
        winner := some (s.participants.getD
          (winner_index_of bytes s.total_tickets) 0)
        status := LotteryStatus.WinnerSelected } := by
  have hwi : winner_index_of bytes s.total_tickets < s.participants.length :=
    lt_of_lt_of_le (Nat.mod_lt _ hpos) hlen
  have hmem : s.participants.getD (winner_index_of bytes s.total_tickets) 0
      ∈ s.participants := by
    rw [List.getD_eq_getElem _ _ hwi]
    exact List.getElem_mem _
  have hne : s.participants ≠ [] :=
    List.length_pos.mp (lt_of_lt_of_le hpos hlen)
  rcases hst with hEnded | ⟨hAct, hLate⟩
  · simp only [select_winner,
      lgs_eq_of_not_active now s (by rw [hEnded]; simp)]
    rw [if_pos hw, if_pos hid, if_pos (Or.inl hEnded),
        checked_mul_of_lt _ _ hmul]
    simp only []
    rw [if_pos hw, if_pos ⟨hpos, hne⟩, if_pos hwi,
        set_winner_spec
          (s.participants.getD (winner_index_of bytes s.total_tickets) 0)
          { s with randomness_account := some k,
                   total_prize := s.entry_fee * s.total_tickets } hw hmem]
    simp
  · simp only [select_winner, lgs_eq_of_late_active now s hAct hLate]
    rw [if_pos hw, if_pos hid]
    simp only [true_or, if_true]
    rw [checked_mul_of_lt _ _ hmul]
    simp only []
    rw [if_pos hw, if_pos ⟨hpos, hne⟩, if_pos hwi,
        set_winner_spec
          (s.participants.getD (winner_index_of bytes s.total_tickets) 0)
          { s with status := LotteryStatus.EndedWaitingForWinner,
                   randomness_account := some k,
                   total_prize := s.entry_fee * s.total_tickets } hw hmem]
    simp


lemma select_winner_already (arg_id : String) (k : Nat) (o : OracleData)
    (now : Int) (s : LotteryState) (w : Nat) (h : s.winner = some w) :
    select_winner arg_id k o now s =
      Except.error LotteryError.WinnerAlreadySelected := by
  unfold select_winner
  rw [if_neg (by simp [h])]

lemma buy_ticket_creator_err (arg_id : String) (p : Nat) (now : Int)
    (s : LotteryState) (h1 : s.lottery_id = arg_id) (h2 : p = s.creator) :
    buy_ticket arg_id p now s =
      Except.error LotteryError.CreatorCannotParticipate := by
  unfold buy_ticket
  rw [if_pos h1, if_neg (by simp [h2])]

lemma buy_ticket_full_err (arg_id : String) (p : Nat) (now : Int)
    (s : LotteryState) (h1 : s.lottery_id = arg_id) (h2 : p ≠ s.creator)
    (h3 : s.status = LotteryStatus.Active) (h4 : ¬ now > s.end_time)
    (h5 : s.winner = none) (h6 : s.total_tickets = MAX_PARTICIPANTS) :
    buy_ticket arg_id p now s =
      Except.error LotteryError.MaxParticipantsReached := by
  simp only [buy_ticket, lgs_eq_of_early_active now s h4]
  rw [if_pos h1, if_pos h2, if_pos h3, if_pos h5, if_neg (by omega)]

lemma claim_prize_wrong_status (arg_id : String) (p : Nat)
    (s : LotteryState) (hw : s.winner = some p)
    (hst : s.status ≠ LotteryStatus.WinnerSelected) :
    claim_prize arg_id p s =
      Except.error LotteryError.InvalidLotteryState := by
  unfold claim_prize
  rw [if_pos (by simp [hw] : s.winner.isSome = true), if_pos hw, if_neg hst]

lemma select_winner_no_participants (arg_id : String) (k : Nat)
    (o : OracleData) (now : Int) (s : LotteryState)
    (hw : s.winner = none) (hid : s.lottery_id = arg_id)
    (hst : s.status = LotteryStatus.EndedWaitingForWinner)
    (ht : s.total_tickets = 0) :
    select_winner arg_id k o now s =
      Except.error LotteryError.NoParticipants := by
  have hb : s.entry_fee * s.total_tickets < U64_MOD := by
    rw [ht]
    simp [U64_MOD]
  simp only [select_winner, lgs_eq_of_not_active now s (by rw [hst]; simp)]
  rw [if_pos hw, if_pos hid, if_pos (Or.inl hst), checked_mul_of_lt _ _ hb]
  simp only []
  rw [if_pos hw, if_neg (by simp [ht])]

lemma step_preserves_inv (op : Op) (s : LotteryState) (h : InvS s) :
    InvS (step op s) := by
  obtain ⟨h1, h2, h3⟩ := h
  cases op with
  | opGetStatus arg_id now =>
    simp only [step, get_status_op]
    split_ifs with hid
    · show InvS (lottery_get_status now s).2
      rcases lgs_snd_cases now s with he | he <;> rw [he] <;>
        exact ⟨h1, h2, h3⟩
    · exact ⟨h1, h2, h3⟩
  | opBuyTicket arg_id p now =>
    simp only [step]
    cases hb : buy_ticket arg_id p now s with
    | error e => exact ⟨h1, h2, h3⟩
    | ok s2 =>
      obtain ⟨hid, hcr, hw, ht, hp, htk, hc, _, _⟩ :=
        buy_ticket_ok _ _ _ _ _ hb
      have hmod : (s.total_tickets + 1) % U32_MOD = s.total_tickets + 1 :=
        Nat.mod_eq_of_lt (by simp only [MAX_PARTICIPANTS] at ht
                             simp only [U32_MOD]; omega)
      refine ⟨?_, ?_, ?_⟩
      · rw [htk, hmod, hp, List.length_append, h1]
        rfl
      · rw [htk, hmod]
        simp only [MAX_PARTICIPANTS] at ht ⊢
        omega
      · rw [hc, hp]
        simp only [List.mem_append, List.mem_singleton]
        rintro (hin | heq)
        · exact h3 hin
        · exact hcr heq.symm
  | opSelectWinner arg_id k o now =>
    simp only [step]
    cases hb : select_winner arg_id k o now s with
    | error e => exact ⟨h1, h2, h3⟩
    | ok s2 =>
      obtain ⟨_, _, _, hp, htk, hc, _, _⟩ := select_winner_ok _ _ _ _ _ _ hb
      exact ⟨by rw [htk, hp, h1], by rw [htk]; exact h2, by rw [hc, hp]; exact h3⟩
  | opClaimPrize arg_id p =>
    simp only [step]
    cases hb : claim_prize arg_id p s with
    | error e => exact ⟨h1, h2, h3⟩
    | ok r =>
      obtain ⟨s2, pay⟩ := r
      obtain ⟨_, _, _, _, hs2, _⟩ := claim_prize_ok _ _ _ _ _ hb
      subst hs2
      exact ⟨h1, h2, h3⟩

lemma reachable_inv (s : LotteryState) (h : Reachable s) : InvS s := by
  induction h with
  | init lottery_id admin creator_key entry_fee end_time buy_back =>
    refine ⟨rfl, ?_, ?_⟩
    · simp [init_lottery, MAX_PARTICIPANTS]
    · simp [init_lottery]
  | next s op hs ih => exact step_preserves_inv op s ih

lemma step_winner_preserved (op : Op) (s : LotteryState) (w : Nat)
    (h : s.winner = some w) : (step op s).winner = some w := by
  cases op with
  | opGetStatus arg_id now =>
    simp only [step, get_status_op]
    split_ifs with hid
    · show (lottery_get_status now s).2.winner = some w
      rw [lgs_winner]
      exact h
    · exact h
  | opBuyTicket arg_id p now =>
    simp only [step]
    cases hb : buy_ticket arg_id p now s with
    | error e => exact h
    | ok s2 =>
      obtain ⟨_, _, hw, _⟩ := buy_ticket_ok _ _ _ _ _ hb
      rw [hw] at h
      exact Option.noConfusion h
  | opSelectWinner arg_id k o now =>
    simp only [step]
    rw [select_winner_already arg_id k o now s w h]
    exact h
  | opClaimPrize arg_id p =>
    simp only [step]
    cases hb : claim_prize arg_id p s with
    | error e => exact h
    | ok r =>
      obtain ⟨s2, pay⟩ := r
      obtain ⟨_, _, _, _, hs2, _⟩ := claim_prize_ok _ _ _ _ _ hb
      subst hs2
      exact h

/-- C1 (amended): for a lottery in `WinnerSelected` whose recorded
`total_prize` is divisible by 100, a successful `claim_prize` pays the four
multiply-then-divide legs of 90%, 3%, 3% and 4% of `total_prize`, the four
legs sum exactly to `total_prize`, and an escrow holding exactly
`total_prize` is drained to exactly zero.  (Without the divisibility
hypothesis the floor divisions leave a positive residue in escrow; see the
counterexample.) -/
theorem claim_C1 (arg_id : String) (p : Nat) (s : LotteryState)
    (b : Balances)
    (h1 : s.status = LotteryStatus.WinnerSelected)
    (h2 : s.winner = some p)
    (h3 : s.lottery_id = arg_id)
    (h4 : s.total_prize * 90 < U64_MOD)
    (h5 : 100 ∣ s.total_prize)
    (h6 : b.lottery = s.total_prize) :
    claim_prize arg_id p s =
      Except.ok ({ s with status := LotteryStatus.Completed },
                 payout_of s.total_prize) ∧
    (payout_of s.total_prize).prize +
      (payout_of s.total_prize).creator_share +
      (payout_of s.total_prize).developer_share +
      (payout_of s.total_prize).admin_share = s.total_prize ∧
    (apply_payout b (payout_of s.total_prize)).lottery = 0 := by
  obtain ⟨t, ht⟩ := h5
  refine ⟨claim_prize_spec arg_id p s h1 h2 h3 h4, ?_, ?_⟩
  · simp only [payout_of]
    rw [ht]
    omega
  · simp only [apply_payout, payout_of, h6]
    rw [ht]
    omega

/-- C1 counterexample: at `cex_state` (`total_prize = 50`, escrow 50) the
claim succeeds, but the four legs are 45, 1, 1, 2 which sum to 49, not 50,
and the escrow retains 1 lamport instead of being drained to zero. -/
theorem claim_C1_counterexample :
    claim_prize "cex" 7 cex_state =
      Except.ok ({ cex_state with status := LotteryStatus.Completed },
        { prize := 45, creator_share := 1, developer_share := 1,
          admin_share := 2 }) ∧
    cex_state.total_prize = 50 ∧
    45 + 1 + 1 + 2 ≠ 50 ∧
    cex_balances.lottery = cex_state.total_prize ∧
    (apply_payout cex_balances
      { prize := 45, creator_share := 1, developer_share := 1,
        admin_share := 2 }).lottery = 1 := by
  refine ⟨rfl, rfl, by decide, rfl, by decide⟩

/-- C1 witness: the amended claim applied to the scenario lottery with
`total_prize = 3000` and an escrow of 3000 lamports. -/
theorem claim_C1_witness :
    claim_prize "demo" 22 scenario_selected =
      Except.ok ({ scenario_selected with status := LotteryStatus.Completed },
                 payout_of scenario_selected.total_prize) ∧
    (payout_of scenario_selected.total_prize).prize +
      (payout_of scenario_selected.total_prize).creator_share +
      (payout_of scenario_selected.total_prize).developer_share +
      (payout_of scenario_selected.total_prize).admin_share =
        scenario_selected.total_prize ∧
    (apply_payout
      { lottery := 3000, player := 0, creator := 0, developer := 0,
        admin := 0 }
      (payout_of scenario_selected.total_prize)).lottery = 0 :=
  claim_C1 "demo" 22 scenario_selected
    { lottery := 3000, player := 0, creator := 0, developer := 0,
      admin := 0 }
    rfl rfl rfl (by decide) (by decide) rfl

/-- C2: for every lottery satisfying the selection preconditions, a
successful `select_winner` sets `total_prize = entry_fee * total_tickets`,
records the oracle account, picks
`winner = participants[winner_index_of bytes total_tickets]` (the oracle
value modulo the ticket count) and advances the status to `WinnerSelected`;
in particular, for `entry_fee = 1000`, 3 tickets and oracle raw value 7 the
winner index is 1, the prize is 3000, and the subsequent claim disburses
2700 / 90 / 90 / 120 to winner, creator, developer and admin. -/
theorem claim_C2 :
    (∀ (arg_id : String) (k : Nat) (now : Int) (bytes : List Nat)
       (s : LotteryState),
       s.winner = none → s.lottery_id = arg_id →
       (s.status = LotteryStatus.EndedWaitingForWinner ∨
        (s.status = LotteryStatus.Active ∧ now > s.end_time)) →
       s.entry_fee * s.total_tickets < U64_MOD →
       0 < s.total_tickets → s.total_tickets ≤ s.participants.length →
       select_winner arg_id k (OracleData.value bytes) now s =
         Except.ok { s with
           total_prize := s.entry_fee * s.total_tickets
           randomness_account := some k
           winner := some (s.participants.getD
             (winner_index_of bytes s.total_tickets) 0)
           status := LotteryStatus.WinnerSelected }) ∧
    winner_index_of scenario_bytes 3 = 1 ∧
    select_winner "demo" 777 (OracleData.value scenario_bytes) 200
        scenario_state = Except.ok scenario_selected ∧
    scenario_selected.winner = some 22 ∧
    scenario_selected.total_prize = 3000 ∧
    claim_prize "demo" 22 scenario_selected =
      Except.ok ({ scenario_selected with status := LotteryStatus.Completed },
        { prize := 2700, creator_share := 90, developer_share := 90,
          admin_share := 120 }) := by
  refine ⟨fun arg_id k now bytes s hw hid hst hmul hpos hlen =>
    select_winner_spec arg_id k now bytes s hw hid hst hmul hpos hlen,
    by decide, rfl, rfl, rfl, rfl⟩

/-- C2 witness: the general statement applied to the concrete scenario
lottery and oracle value. -/
theorem claim_C2_witness :
    select_winner "demo" 777 (OracleData.value scenario_bytes) 200
        scenario_state =
      Except.ok { scenario_state with
        total_prize := scenario_state.entry_fee * scenario_state.total_tickets
        randomness_account := some 777
        winner := some (scenario_state.participants.getD
          (winner_index_of scenario_bytes scenario_state.total_tickets) 0)
        status := LotteryStatus.WinnerSelected } :=
  claim_C2.1 "demo" 777 200 scenario_bytes scenario_state rfl rfl
    (Or.inl rfl) (by decide) (by decide) (by decide)

/-- C3: in every reachable state `total_tickets` equals the participant
count and both are at most 100; and a `buy_ticket` issued when all 100
tickets are sold fails with `MaxParticipantsReached` and leaves the record
(in particular `participants`) unchanged. -/
theorem claim_C3 :
    (∀ s : LotteryState, Reachable s →
       s.total_tickets = s.participants.length ∧
       s.total_tickets ≤ 100 ∧ s.participants.length ≤ 100) ∧
    (∀ (arg_id : String) (p : Nat) (now : Int) (s : LotteryState),
       s.lottery_id = arg_id → p ≠ s.creator →
       s.status = LotteryStatus.Active → ¬ now > s.end_time →
       s.winner = none → s.total_tickets = 100 →
       buy_ticket arg_id p now s =
         Except.error LotteryError.MaxParticipantsReached ∧
       step (Op.opBuyTicket arg_id p now) s = s) := by
  constructor
  · intro s hs
    obtain ⟨i1, i2, _⟩ := reachable_inv s hs
    exact ⟨i1, i2, i1 ▸ i2⟩
  · intro arg_id p now s h1 h2 h3 h4 h5 h6
    have herr := buy_ticket_full_err arg_id p now s h1 h2 h3 h4 h5 h6
    exact ⟨herr, by simp [step, herr]⟩

/-- C3 witness: the invariant at a freshly initialized lottery, and the
sold-out refusal at `demo_full` (100 tickets sold). -/
theorem claim_C3_witness :
    ((init_lottery "w" 0 9 10 50 false).total_tickets =
       (init_lottery "w" 0 9 10 50 false).participants.length ∧
     (init_lottery "w" 0 9 10 50 false).total_tickets ≤ 100 ∧
     (init_lottery "w" 0 9 10 50 false).participants.length ≤ 100) ∧
    (buy_ticket "full" 5 0 demo_full =
       Except.error LotteryError.MaxParticipantsReached ∧
     step (Op.opBuyTicket "full" 5 0) demo_full = demo_full) :=
  ⟨claim_C3.1 _ (Reachable.init "w" 0 9 10 50 false),
   claim_C3.2 "full" 5 0 demo_full rfl (by decide) rfl (by decide) rfl rfl⟩

/-- C4: once `winner` is set it is never changed by any instruction, and a
second `select_winner` call fails with `WinnerAlreadySelected` instead of
overwriting it. -/
theorem claim_C4 :
    (∀ (op : Op) (s : LotteryState) (w : Nat),
       s.winner = some w → (step op s).winner = some w) ∧
    (∀ (arg_id : String) (k : Nat) (o : OracleData) (now : Int)
       (s : LotteryState) (w : Nat), s.winner = some w →
       select_winner arg_id k o now s =
         Except.error LotteryError.WinnerAlreadySelected) :=
  ⟨fun op s w h => step_winner_preserved op s w h,
   fun arg_id k o now s w h => select_winner_already arg_id k o now s w h⟩

/-- C4 witness: winner 22 of the scenario lottery survives a `get_status`
call, and a repeated `select_winner` on it fails. -/
theorem claim_C4_witness :
    (step (Op.opGetStatus "demo" 300) scenario_selected).winner = some 22 ∧
    select_winner "demo" 1 OracleData.unparseable 300 scenario_selected =
      Except.error LotteryError.WinnerAlreadySelected :=
  ⟨claim_C4.1 (Op.opGetStatus "demo" 300) scenario_selected 22 rfl,
   claim_C4.2 "demo" 1 OracleData.unparseable 300 scenario_selected 22 rfl⟩

/-- C5: `claim_prize` succeeds at most once: a successful claim advances
the status to `Completed`, and a second call on the resulting record fails
the status precondition with `InvalidLotteryState`, leaving both the record
and every balance unchanged. -/
theorem claim_C5 (arg_id : String) (p : Nat) (s : LotteryState)
    (h1 : s.status = LotteryStatus.WinnerSelected)
    (h2 : s.winner = some p)
    (h3 : s.lottery_id = arg_id)
    (h4 : s.total_prize * 90 < U64_MOD) :
    claim_prize arg_id p s =
      Except.ok ({ s with status := LotteryStatus.Completed },
                 payout_of s.total_prize) ∧
    ({ s with status := LotteryStatus.Completed } : LotteryState).status =
      LotteryStatus.Completed ∧
    claim_prize arg_id p { s with status := LotteryStatus.Completed } =
      Except.error LotteryError.InvalidLotteryState ∧
    ∀ b : Balances,
      claim_prize_run arg_id p
          { s with status := LotteryStatus.Completed } b =
        ({ s with status := LotteryStatus.Completed }, b) := by
  have hsecond := claim_prize_wrong_status arg_id p
    { s with status := LotteryStatus.Completed } h2 (by simp)
  refine ⟨claim_prize_spec arg_id p s h1 h2 h3 h4, rfl, hsecond, fun b => ?_⟩
  simp [claim_prize_run, hsecond]

/-- C5 witness: the double-claim refusal at the scenario lottery. -/
theorem claim_C5_witness :
    claim_prize "demo" 22 scenario_selected =
      Except.ok ({ scenario_selected with status := LotteryStatus.Completed },
                 payout_of scenario_selected.total_prize) ∧
    ({ scenario_selected with status := LotteryStatus.Completed } :
        LotteryState).status = LotteryStatus.Completed ∧
    claim_prize "demo" 22
        { scenario_selected with status := LotteryStatus.Completed } =
      Except.error LotteryError.InvalidLotteryState ∧
    ∀ b : Balances,
      claim_prize_run "demo" 22
          { scenario_selected with status := LotteryStatus.Completed } b =
        ({ scenario_selected with status := LotteryStatus.Completed }, b) :=
  claim_C5 "demo" 22 scenario_selected rfl rfl rfl (by decide)

/-- C6: the creator never appears in `participants` in any reachable
state, and a `buy_ticket` whose buyer is the creator fails with
`CreatorCannotParticipate` and mutates nothing. -/
theorem claim_C6 :
    (∀ s : LotteryState, Reachable s → s.creator ∉ s.participants) ∧
    (∀ (arg_id : String) (p : Nat) (now : Int) (s : LotteryState),
       s.lottery_id = arg_id → p = s.creator →
       buy_ticket arg_id p now s =
         Except.error LotteryError.CreatorCannotParticipate ∧
       step (Op.opBuyTicket arg_id p now) s = s) := by
  constructor
  · intro s hs
    exact (reachable_inv s hs).2.2
  · intro arg_id p now s h1 h2
    have herr := buy_ticket_creator_err arg_id p now s h1 h2
    exact ⟨herr, by simp [step, herr]⟩

/-- C6 witness: the creator of `demo_full` (key 9) is rejected as a
buyer, and the creator-free invariant at a fresh lottery. -/
theorem claim_C6_witness :
    (init_lottery "w2" 0 9 10 50 false).creator ∉
      (init_lottery "w2" 0 9 10 50 false).participants ∧
    (buy_ticket "full" 9 0 demo_full =
       Except.error LotteryError.CreatorCannotParticipate ∧
     step (Op.opBuyTicket "full" 9 0) demo_full = demo_full) :=
  ⟨claim_C6.1 _ (Reachable.init "w2" 0 9 10 50 false),
   claim_C6.2 "full" 9 0 demo_full rfl rfl⟩

/-- C7: `total_prize` is computed by a checked `u64` multiplication: when
`entry_fee * total_tickets` leaves the `u64` range `select_winner` fails
with `Overflow`, and every successful call records the exact mathematical
product (no silent wraparound). -/
theorem claim_C7 :
    (∀ (arg_id : String) (k : Nat) (o : OracleData) (now : Int)
       (s : LotteryState),
       s.winner = none → s.lottery_id = arg_id →
       s.status = LotteryStatus.EndedWaitingForWinner →
       U64_MOD ≤ s.entry_fee * s.total_tickets →
       select_winner arg_id k o now s =
         Except.error LotteryError.Overflow) ∧
    (∀ (arg_id : String) (k : Nat) (o : OracleData) (now : Int)
       (s s' : LotteryState),
       select_winner arg_id k o now s = Except.ok s' →
       s'.total_prize = s.entry_fee * s.total_tickets ∧
       s.entry_fee * s.total_tickets < U64_MOD) := by
  constructor
  · intro arg_id k o now s hw hid hst hov
    simp only [select_winner,
      lgs_eq_of_not_active now s (by rw [hst]; simp)]
    rw [if_pos hw, if_pos hid, if_pos (Or.inl hst)]
    have hnone : checked_mul s.entry_fee s.total_tickets = none := by
      unfold checked_mul
      rw [if_neg (by omega)]
    rw [hnone]
  · intro arg_id k o now s s' h
    obtain ⟨_, hb, hp, _⟩ := select_winner_ok _ _ _ _ _ _ h
    exact ⟨hp, hb⟩

/-- C7 witness: overflow at `demo_overflow` (fee 2^63, two tickets), and
exact recording of the product at the scenario lottery. -/
theorem claim_C7_witness :
    select_winner "ovf" 0 OracleData.notResolved 5 demo_overflow =
      Except.error LotteryError.Overflow ∧
    (scenario_selected.total_prize =
       scenario_state.entry_fee * scenario_state.total_tickets ∧
     scenario_state.entry_fee * scenario_state.total_tickets < U64_MOD) :=
  ⟨claim_C7.1 "ovf" 0 OracleData.notResolved 5 demo_overflow rfl rfl rfl
     (by decide),
   claim_C7.2 "demo" 777 (OracleData.value scenario_bytes) 200
     scenario_state scenario_selected rfl⟩

/-- C8: a `select_winner` call on an ended lottery with zero tickets fails
with `NoParticipants`, and the failing transaction leaves the record (in
particular `total_prize`, `randomness_account`, `winner` and `status`)
unchanged. -/
theorem claim_C8 (arg_id : String) (k : Nat) (o : OracleData) (now : Int)
    (s : LotteryState)
    (hw : s.winner = none) (hid : s.lottery_id = arg_id)
    (hst : s.status = LotteryStatus.EndedWaitingForWinner)
    (ht : s.total_tickets = 0) :
    select_winner arg_id k o now s =
      Except.error LotteryError.NoParticipants ∧
    step (Op.opSelectWinner arg_id k o now) s = s := by
  have herr := select_winner_no_participants arg_id k o now s hw hid hst ht
  exact ⟨herr, by simp [step, herr]⟩

/-- C8 witness: the empty lottery `demo_empty`. -/
theorem claim_C8_witness :
    select_winner "mt" 4 (OracleData.value scenario_bytes) 9 demo_empty =
      Except.error LotteryError.NoParticipants ∧
    step (Op.opSelectWinner "mt" 4 (OracleData.value scenario_bytes) 9)
        demo_empty = demo_empty :=
  claim_C8 "mt" 4 (OracleData.value scenario_bytes) 9 demo_empty
    rfl rfl rfl rfl

/-- C9: reading the status applies the lazy rule exactly once and one-way:
an `Active` lottery past its `end_time` is updated to
`EndedWaitingForWinner` and that status is returned; in every other state
`get_status` returns the stored status and mutates nothing; and after the
lazy transition every later `get_status` (at a non-decreasing time)
returns the same status without further mutation. -/
theorem claim_C9 :
    (∀ (arg_id : String) (now : Int) (s : LotteryState),
       s.lottery_id = arg_id → s.status = LotteryStatus.Active →
       now > s.end_time →
       get_status_op arg_id now s =
         Except.ok (LotteryStatus.EndedWaitingForWinner,
           { s with status := LotteryStatus.EndedWaitingForWinner })) ∧
    (∀ (arg_id : String) (now : Int) (s : LotteryState),
       s.lottery_id = arg_id →
       (s.status ≠ LotteryStatus.Active ∨ ¬ now > s.end_time) →
       get_status_op arg_id now s = Except.ok (s.status, s)) ∧
    (∀ (arg_id : String) (t1 t2 : Int) (s : LotteryState),
       s.lottery_id = arg_id → t1 ≤ t2 →
       s.status = LotteryStatus.Active → t1 > s.end_time →
       get_status_op arg_id t2 (lottery_get_status t1 s).2 =
         Except.ok (LotteryStatus.EndedWaitingForWinner,
                    (lottery_get_status t1 s).2)) := by
  refine ⟨?_, ?_, ?_⟩
  · intro arg_id now s hid hact hlate
    unfold get_status_op
    rw [if_pos hid, lgs_eq_of_late_active now s hact hlate]
  · intro arg_id now s hid hcond
    unfold get_status_op
    rw [if_pos hid]
    rcases hcond with hna | hearly
    · rw [lgs_eq_of_not_active now s hna]
    · rw [lgs_eq_of_early_active now s hearly]
  · intro arg_id t1 t2 s hid hle hact hlate
    rw [lgs_eq_of_late_active t1 s hact hlate]
    unfold get_status_op
    rw [if_pos
      (show ({ s with status := LotteryStatus.EndedWaitingForWinner } :
        LotteryState).lottery_id = arg_id from hid)]
    rw [lgs_eq_of_not_active t2 _ (by simp)]

/-- C9 witness: `demo_active` (sale ends at time 10) read at times 11 and
12: the first read performs the lazy transition, the second is a no-op
returning the same status. -/
theorem claim_C9_witness :
    get_status_op "act" 11 demo_active =
      Except.ok (LotteryStatus.EndedWaitingForWinner,
        { demo_active with status := LotteryStatus.EndedWaitingForWinner }) ∧
    get_status_op "act" 5 demo_active =
      Except.ok (demo_active.status, demo_active) ∧
    get_status_op "act" 12 (lottery_get_status 11 demo_active).2 =
      Except.ok (LotteryStatus.EndedWaitingForWinner,
                 (lottery_get_status 11 demo_active).2) :=
  ⟨claim_C9.1 "act" 11 demo_active rfl rfl (by decide),
   claim_C9.2.1 "act" 5 demo_active rfl (Or.inr (by decide)),
   claim_C9.2.2 "act" 11 12 demo_active rfl (by decide) rfl (by decide)⟩

/-- C10: the selected winner depends only on the first byte of the 32-byte
oracle value: two oracle values with equal first byte make `select_winner`
return identical results, and since the index is that byte modulo the
ticket count, `winner_index_of` is always below 256 for byte-valued
input (so at most 256 distinct raw outcomes exist). -/
theorem claim_C10 :
    (∀ (arg_id : String) (k : Nat) (now : Int) (s : LotteryState)
       (b1 b2 : List Nat), b1.headD 0 = b2.headD 0 →
       select_winner arg_id k (OracleData.value b1) now s =
         select_winner arg_id k (OracleData.value b2) now s) ∧
    (∀ (bytes : List Nat) (t : Nat), bytes.headD 0 < 256 →
       winner_index_of bytes t < 256) := by
  constructor
  · intro arg_id k now s b1 b2 h
    simp only [select_winner, winner_index_of, h]
  · intro bytes t h
    exact lt_of_le_of_lt (Nat.mod_le _ _) h

/-- C10 witness: the one-byte oracle value `[7]` and the 32-byte
`scenario_bytes` share their first byte, so selection agrees; and the
index bound at byte 7. -/
theorem claim_C10_witness :
    select_winner "demo" 777 (OracleData.value [7]) 200 scenario_state =
      select_winner "demo" 777 (OracleData.value scenario_bytes) 200
        scenario_state ∧
    winner_index_of [7] 3 < 256 :=
  ⟨claim_C10.1 "demo" 777 200 scenario_state [7] scenario_bytes rfl,
   claim_C10.2 [7] 3 (by decide)⟩
